import Mathlib

/-!
Verification of the OAuth 2.0 response-result library (`src/index.ts`).

The library wraps an already-parsed JSON response body and exposes typed
accessors.  We embed it shallowly:

* JSON values become the inductive `JsonValue`; JavaScript numbers are
  modelled as rationals (`ℚ`), which is exact for every value the claims
  touch (no rounding arithmetic occurs in the source).
* A response body (`this.body`) becomes `Payload`, an association list from
  string keys to `JsonValue`; the JavaScript `"k" in body` test and member
  read `body.k` become `Payload.lookup k`.
* A method that can `throw` becomes a function into `Except FieldError α`.
  The source throws plain `Error` objects with two message shapes,
  "Missing or invalid <name> field" and "Invalid <name> field"; these become
  the two constructors of `FieldError`, each carrying the field name.
* `Date.now()` is modelled by passing the clock value `now : ℚ`
  (milliseconds) as an argument; methods that read the clock also return the
  number of clock reads they performed before completing (normally or by
  throw), so that evaluation order relative to failure is observable.
-/

namespace NoteOAuth2

/-- A parsed JSON value, as handed to a result wrapper by the external
HTTP/JSON layer.  JavaScript numbers are modelled as `ℚ`. -/
inductive JsonValue where
  | str (s : String)
  | num (n : ℚ)
  | bool (b : Bool)
  | null
  | arr (elems : List JsonValue)
  | obj (fields : List (String × JsonValue))

/-- `typeof v === "string"` -/
def JsonValue.isString : JsonValue → Bool
  | .str _ => true
  | _ => false

/-- `typeof v === "number"` -/
def JsonValue.isNumber : JsonValue → Bool
  | .num _ => true
  | _ => false

/-- The response body stored in `this.body`: a finite map from string keys to
JSON values, modelled as an association list (JavaScript object keys are
unique, so first-match lookup is the member read). -/
abbrev Payload := List (String × JsonValue)

/-- The two error shapes thrown by the source: `missingOrInvalidField name`
models `new Error("Missing or invalid <name> field")` and
`invalidField name` models `new Error("Invalid <name> field")`. -/
inductive FieldError where
  | missingOrInvalidField (name : String)
  | invalidField (name : String)
deriving DecidableEq

/-- Shared shape of every `has<Field>` method of the source
(`hasErrorCode`, `hasErrorDescription`, `hasErrorURI`, `hasState`,
`hasRefreshToken`, `hasScopes`):
`return "<k>" in this.body && typeof this.body.<k> === "string";`.
The method body contains no `throw`, so the result is always `.ok`. -/
def hasStringField (k : String) (body : Payload) : Except FieldError Bool :=
  .ok (match body.lookup k with
       | some (.str _) => true
       | _ => false)

/-- Shared shape of every string getter of the source (`errorCode`,
`errorDescription`, `errorURI`, `state`, `tokenType`, `accessToken`,
`refreshToken`, `deviceCode`, `userCode`, `verificationURI`):
`if ("<k>" in this.body && typeof this.body.<k> === "string") return this.body.<k>;
throw new Error("Missing or invalid <k> field");`. -/
def getStringField (k : String) (body : Payload) : Except FieldError String :=
  match body.lookup k with
  | some (.str s) => .ok s
  | _ => .error (.missingOrInvalidField k)

/-- Shared shape of the numeric getters (`accessTokenExpiresInSeconds`,
`codesExpireInSeconds`):
`if ("<k>" in this.body && typeof this.body.<k> === "number") return this.body.<k>;
throw new Error("Missing or invalid <k> field");`. -/
def getNumberField (k : String) (body : Payload) : Except FieldError ℚ :=
  match body.lookup k with
  | some (.num n) => .ok n
  | _ => .error (.missingOrInvalidField k)

/-! ### OAuth2RequestResult (base class), src/index.ts lines 19-131 -/

/-- `hasErrorCode()`, line 42. -/
def hasErrorCode (body : Payload) : Except FieldError Bool :=
  hasStringField "error" body

/-- `errorCode()`, line 53. -/
def errorCode (body : Payload) : Except FieldError String :=
  getStringField "error" body

/-- `hasErrorDescription()`, line 66. -/
def hasErrorDescription (body : Payload) : Except FieldError Bool :=
  hasStringField "error_description" body

/-- `errorDescription()`, line 77. -/
def errorDescription (body : Payload) : Except FieldError String :=
  getStringField "error_description" body

/-- `hasErrorURI()`, line 90. -/
def hasErrorURI (body : Payload) : Except FieldError Bool :=
  hasStringField "error_uri" body

/-- `errorURI()`, line 101. -/
def errorURI (body : Payload) : Except FieldError String :=
  getStringField "error_uri" body

/-- `hasState()`, line 114. -/
def hasState (body : Payload) : Except FieldError Bool :=
  hasStringField "state" body

/-- `state()`, line 125. -/
def state (body : Payload) : Except FieldError String :=
  getStringField "state" body

/-! ### TokenRequestResult, src/index.ts lines 143-245 -/

/-- `tokenType()`, line 151. -/
def tokenType (body : Payload) : Except FieldError String :=
  getStringField "token_type" body

/-- `accessToken()`, line 165. -/
def accessToken (body : Payload) : Except FieldError String :=
  getStringField "access_token" body

/-- `accessTokenExpiresInSeconds()`, line 179. -/
def accessTokenExpiresInSeconds (body : Payload) : Except FieldError ℚ :=
  getNumberField "expires_in" body

/-- `accessTokenExpiresAt()`, line 193:
`return new Date(Date.now() + this.accessTokenExpiresInSeconds() * 1000);`.
JavaScript evaluates `+` left to right, so `Date.now()` is executed before
`this.accessTokenExpiresInSeconds()`, which may throw.  The first component
is the number of clock reads performed before the method completed (it is 1
on both the normal and the throwing path); the second is the returned
timestamp in milliseconds, or the propagated error. -/
def accessTokenExpiresAt (body : Payload) (now : ℚ) :
    Nat × Except FieldError ℚ :=
  match accessTokenExpiresInSeconds body with
  | .ok v => (1, .ok (now + v * 1000))
  | .error e => (1, .error e)

/-- `hasRefreshToken()`, line 203. -/
def hasRefreshToken (body : Payload) : Except FieldError Bool :=
  hasStringField "refresh_token" body

/-- `refreshToken()`, line 214. -/
def refreshToken (body : Payload) : Except FieldError String :=
  getStringField "refresh_token" body

/-- `hasScopes()`, line 227. -/
def hasScopes (body : Payload) : Except FieldError Bool :=
  hasStringField "scope" body

/-- JavaScript `String.prototype.split` restricted to a one-character
separator, on the underlying character list: `"".split(sep)` is `[""]`, and
each occurrence of the separator ends the current piece, so consecutive
separators produce empty pieces. -/
def splitChars (sep : Char) : List Char → List (List Char)
  | [] => [[]]
  | c :: rest =>
    if c = sep then
      [] :: splitChars sep rest
    else
      match splitChars sep rest with
      | [] => [[c]]
      | w :: ws => (c :: w) :: ws

/-- `s.split(" ")` for a JavaScript string `s`. -/
def jsSplit (sep : Char) (s : String) : List String :=
  (splitChars sep s.data).map List.asString

/-- `scopes()`, line 239:
`if ("scope" in this.body && typeof this.body.scope === "string")
return this.body.scope.split(" ");
throw new Error("Missing or invalid scope field");`. -/
def scopes (body : Payload) : Except FieldError (List String) :=
  match body.lookup "scope" with
  | some (.str s) => .ok (jsSplit ' ' s)
  | _ => .error (.missingOrInvalidField "scope")

/-! ### DeviceAuthorizationRequestResult, src/index.ts lines 256-342 -/

/-- `deviceCode()`, line 264. -/
def deviceCode (body : Payload) : Except FieldError String :=
  getStringField "device_code" body

/-- `userCode()`, line 278. -/
def userCode (body : Payload) : Except FieldError String :=
  getStringField "user_code" body

/-- `verificationURI()`, line 293. -/
def verificationURI (body : Payload) : Except FieldError String :=
  getStringField "verification_uri" body

/-- `codesExpireInSeconds()`, line 307. -/
def codesExpireInSeconds (body : Payload) : Except FieldError ℚ :=
  getNumberField "expires_in" body

/-- `codesExpireAt()`, line 321:
`return new Date(Date.now() + this.codesExpireInSeconds() * 1000);`.
Same clock-read accounting as `accessTokenExpiresAt`. -/
def codesExpireAt (body : Payload) (now : ℚ) :
    Nat × Except FieldError ℚ :=
  match codesExpireInSeconds body with
  | .ok v => (1, .ok (now + v * 1000))
  | .error e => (1, .error e)

/-- `intervalSeconds()`, line 334:
`if ("interval" in this.body) { if (typeof this.body.interval === "number")
return this.body.interval; throw new Error("Invalid interval field"); }
return 5;`. -/
def intervalSeconds (body : Payload) : Except FieldError ℚ :=
  match body.lookup "interval" with
  | some (.num n) => .ok n
  | some _ => .error (.invalidField "interval")
  | none => .ok 5

/-! ### The wrapper classes with explicit object state.

Each class stores exactly the field `body` assigned by the constructor
(line 32).  To state frame properties, each method also gets an `M` version
on the wrapper that returns the method result together with the post-call
wrapper; since no method body of the source assigns to `this.body` (or to
any other field), the post-call wrapper is the receiver unchanged. -/

/-- The base class: its only field is `body` (line 24). -/
structure OAuth2RequestResult where
  body : Payload

/-- The constructor, line 32: `constructor(body: object) { this.body = body; }`.
It contains no `throw`, so it returns `.ok` for every payload. -/
def OAuth2RequestResult.make (body : Payload) :
    Except FieldError OAuth2RequestResult :=
  .ok ⟨body⟩

/-- `TokenRequestResult extends OAuth2RequestResult`: inherits the single
field `body` and the same constructor. -/
structure TokenRequestResult where
  body : Payload

/-- The inherited constructor for `TokenRequestResult`. -/
def TokenRequestResult.make (body : Payload) :
    Except FieldError TokenRequestResult :=
  .ok ⟨body⟩

/-- `DeviceAuthorizationRequestResult extends OAuth2RequestResult`: inherits
the single field `body` and the same constructor. -/
structure DeviceAuthorizationRequestResult where
  body : Payload

/-- The inherited constructor for `DeviceAuthorizationRequestResult`. -/
def DeviceAuthorizationRequestResult.make (body : Payload) :
    Except FieldError DeviceAuthorizationRequestResult :=
  .ok ⟨body⟩

def OAuth2RequestResult.hasErrorCodeM (r : OAuth2RequestResult) :
    Except FieldError Bool × OAuth2RequestResult :=
  (hasErrorCode r.body, r)

def OAuth2RequestResult.errorCodeM (r : OAuth2RequestResult) :
    Except FieldError String × OAuth2RequestResult :=
  (errorCode r.body, r)

def OAuth2RequestResult.hasErrorDescriptionM (r : OAuth2RequestResult) :
    Except FieldError Bool × OAuth2RequestResult :=
  (hasErrorDescription r.body, r)

def OAuth2RequestResult.errorDescriptionM (r : OAuth2RequestResult) :
    Except FieldError String × OAuth2RequestResult :=
  (errorDescription r.body, r)

def OAuth2RequestResult.hasErrorURIM (r : OAuth2RequestResult) :
    Except FieldError Bool × OAuth2RequestResult :=
  (hasErrorURI r.body, r)

def OAuth2RequestResult.errorURIM (r : OAuth2RequestResult) :
    Except FieldError String × OAuth2RequestResult :=
  (errorURI r.body, r)

def OAuth2RequestResult.hasStateM (r : OAuth2RequestResult) :
    Except FieldError Bool × OAuth2RequestResult :=
  (hasState r.body, r)

def OAuth2RequestResult.stateM (r : OAuth2RequestResult) :
    Except FieldError String × OAuth2RequestResult :=
  (state r.body, r)

def TokenRequestResult.tokenTypeM (r : TokenRequestResult) :
    Except FieldError String × TokenRequestResult :=
  (tokenType r.body, r)

def TokenRequestResult.accessTokenM (r : TokenRequestResult) :
    Except FieldError String × TokenRequestResult :=
  (accessToken r.body, r)

def TokenRequestResult.accessTokenExpiresInSecondsM (r : TokenRequestResult) :
    Except FieldError ℚ × TokenRequestResult :=
  (accessTokenExpiresInSeconds r.body, r)

def TokenRequestResult.accessTokenExpiresAtM (r : TokenRequestResult)
    (now : ℚ) : (Nat × Except FieldError ℚ) × TokenRequestResult :=
  (accessTokenExpiresAt r.body now, r)

def TokenRequestResult.hasRefreshTokenM (r : TokenRequestResult) :
    Except FieldError Bool × TokenRequestResult :=
  (hasRefreshToken r.body, r)

def TokenRequestResult.refreshTokenM (r : TokenRequestResult) :
    Except FieldError String × TokenRequestResult :=
  (refreshToken r.body, r)

def TokenRequestResult.hasScopesM (r : TokenRequestResult) :
    Except FieldError Bool × TokenRequestResult :=
  (hasScopes r.body, r)

def TokenRequestResult.scopesM (r : TokenRequestResult) :
    Except FieldError (List String) × TokenRequestResult :=
  (scopes r.body, r)

def DeviceAuthorizationRequestResult.deviceCodeM
    (r : DeviceAuthorizationRequestResult) :
    Except FieldError String × DeviceAuthorizationRequestResult :=
  (deviceCode r.body, r)

def DeviceAuthorizationRequestResult.userCodeM
    (r : DeviceAuthorizationRequestResult) :
    Except FieldError String × DeviceAuthorizationRequestResult :=
  (userCode r.body, r)

def DeviceAuthorizationRequestResult.verificationURIM
    (r : DeviceAuthorizationRequestResult) :
    Except FieldError String × DeviceAuthorizationRequestResult :=
  (verificationURI r.body, r)

def DeviceAuthorizationRequestResult.codesExpireInSecondsM
    (r : DeviceAuthorizationRequestResult) :
    Except FieldError ℚ × DeviceAuthorizationRequestResult :=
  (codesExpireInSeconds r.body, r)

def DeviceAuthorizationRequestResult.codesExpireAtM
    (r : DeviceAuthorizationRequestResult) (now : ℚ) :
    (Nat × Except FieldError ℚ) × DeviceAuthorizationRequestResult :=
  (codesExpireAt r.body now, r)

def DeviceAuthorizationRequestResult.intervalSecondsM
    (r : DeviceAuthorizationRequestResult) :
    Except FieldError ℚ × DeviceAuthorizationRequestResult :=
  (intervalSeconds r.body, r)

/-! ### Generic lemmas about the shared accessor shapes -/

theorem hasStringField_ok (k : String) (body : Payload) :
    ∃ b, hasStringField k body = .ok b :=
  ⟨_, rfl⟩

theorem hasStringField_eq_true_iff (k : String) (body : Payload) :
    hasStringField k body = .ok true ↔
      ∃ s, body.lookup k = some (JsonValue.str s) := by
  unfold hasStringField
  rcases h : body.lookup k with _ | v
  · simp
  · cases v <;> simp

theorem hasStringField_eq_false_iff (k : String) (body : Payload) :
    hasStringField k body = .ok false ↔
      ∀ s, body.lookup k ≠ some (JsonValue.str s) := by
  unfold hasStringField
  rcases h : body.lookup k with _ | v
  · simp
  · cases v <;> simp

theorem getStringField_of_lookup (k s : String) (body : Payload)
    (h : body.lookup k = some (JsonValue.str s)) :
    getStringField k body = .ok s := by
  unfold getStringField
  rw [h]

theorem getStringField_of_not_str (k : String) (body : Payload)
    (h : ∀ s, body.lookup k ≠ some (JsonValue.str s)) :
    getStringField k body = .error (.missingOrInvalidField k) := by
  unfold getStringField
  rcases hv : body.lookup k with _ | v
  · rfl
  · cases v with
    | str s => exact absurd hv (h s)
    | _ => rfl

theorem getNumberField_of_lookup (k : String) (n : ℚ) (body : Payload)
    (h : body.lookup k = some (JsonValue.num n)) :
    getNumberField k body = .ok n := by
  unfold getNumberField
  rw [h]

theorem getNumberField_of_not_num (k : String) (body : Payload)
    (h : ∀ n, body.lookup k ≠ some (JsonValue.num n)) :
    getNumberField k body = .error (.missingOrInvalidField k) := by
  unfold getNumberField
  rcases hv : body.lookup k with _ | v
  · rfl
  · cases v with
    | num n => exact absurd hv (h n)
    | _ => rfl

theorem splitChars_ne_nil (sep : Char) (l : List Char) :
    splitChars sep l ≠ [] := by
  cases l with
  | nil => simp [splitChars]
  | cons c rest =>
    unfold splitChars
    by_cases h : c = sep
    · simp [h]
    · rw [if_neg h]
      rcases hr : splitChars sep rest with _ | ⟨w, ws⟩ <;> simp

/-! ### Claim theorems -/

/-- C1: for each of the four base fields `error`, `error_description`,
`error_uri`, `state`, the has-accessor returns `true` iff the key is present
with a string value; when it is `true` the get-accessor returns exactly the
stored string, and when it is `false` the get-accessor fails with a
MissingOrInvalidField error naming the field. -/
theorem claim1_base_string_accessors (body : Payload) :
    ((hasErrorCode body = .ok true ↔
        ∃ s, body.lookup "error" = some (JsonValue.str s))
      ∧ (∀ s, body.lookup "error" = some (JsonValue.str s) →
          errorCode body = .ok s)
      ∧ (hasErrorCode body = .ok false →
          errorCode body = .error (.missingOrInvalidField "error")))
    ∧ ((hasErrorDescription body = .ok true ↔
        ∃ s, body.lookup "error_description" = some (JsonValue.str s))
      ∧ (∀ s, body.lookup "error_description" = some (JsonValue.str s) →
          errorDescription body = .ok s)
      ∧ (hasErrorDescription body = .ok false →
          errorDescription body = .error (.missingOrInvalidField "error_description")))
    ∧ ((hasErrorURI body = .ok true ↔
        ∃ s, body.lookup "error_uri" = some (JsonValue.str s))
      ∧ (∀ s, body.lookup "error_uri" = some (JsonValue.str s) →
          errorURI body = .ok s)
      ∧ (hasErrorURI body = .ok false →
          errorURI body = .error (.missingOrInvalidField "error_uri")))
    ∧ ((hasState body = .ok true ↔
        ∃ s, body.lookup "state" = some (JsonValue.str s))
      ∧ (∀ s, body.lookup "state" = some (JsonValue.str s) →
          state body = .ok s)
      ∧ (hasState body = .ok false →
          state body = .error (.missingOrInvalidField "state"))) :=
  ⟨⟨hasStringField_eq_true_iff "error" body,
    fun s h => getStringField_of_lookup "error" s body h,
    fun h => getStringField_of_not_str "error" body
      ((hasStringField_eq_false_iff "error" body).1 h)⟩,
   ⟨hasStringField_eq_true_iff "error_description" body,
    fun s h => getStringField_of_lookup "error_description" s body h,
    fun h => getStringField_of_not_str "error_description" body
      ((hasStringField_eq_false_iff "error_description" body).1 h)⟩,
   ⟨hasStringField_eq_true_iff "error_uri" body,
    fun s h => getStringField_of_lookup "error_uri" s body h,
    fun h => getStringField_of_not_str "error_uri" body
      ((hasStringField_eq_false_iff "error_uri" body).1 h)⟩,
   ⟨hasStringField_eq_true_iff "state" body,
    fun s h => getStringField_of_lookup "state" s body h,
    fun h => getStringField_of_not_str "state" body
      ((hasStringField_eq_false_iff "state" body).1 h)⟩⟩

/-- Witness for C1 at the payload `{error: "invalid_grant"}`. -/
theorem claim1_witness :
    errorCode [("error", JsonValue.str "invalid_grant")] = .ok "invalid_grant" :=
  (claim1_base_string_accessors [("error", JsonValue.str "invalid_grant")]).1.2.1
    "invalid_grant" rfl

/-- C2: when `expires_in` is a number `v`, `accessTokenExpiresAt` and
`codesExpireAt` return the clock value at the moment of the call plus
`v * 1000` milliseconds (`v` seconds); the result is recomputed from the
clock argument on every call, so a call made `d` milliseconds later returns
a timestamp exactly `d` milliseconds later. -/
theorem claim2_expiresAt_now_relative (body : Payload) (now v : ℚ)
    (h : body.lookup "expires_in" = some (JsonValue.num v)) :
    (accessTokenExpiresAt body now).2 = .ok (now + v * 1000)
    ∧ (codesExpireAt body now).2 = .ok (now + v * 1000)
    ∧ (∀ d : ℚ,
        (accessTokenExpiresAt body (now + d)).2 = .ok (now + v * 1000 + d)
        ∧ (codesExpireAt body (now + d)).2 = .ok (now + v * 1000 + d)) := by
  have he : accessTokenExpiresInSeconds body = .ok v :=
    getNumberField_of_lookup "expires_in" v body h
  have hc : codesExpireInSeconds body = .ok v :=
    getNumberField_of_lookup "expires_in" v body h
  refine ⟨?_, ?_, ?_⟩
  · unfold accessTokenExpiresAt; rw [he]
  · unfold codesExpireAt; rw [hc]
  · intro d
    constructor
    · unfold accessTokenExpiresAt; rw [he]
      show Except.ok (now + d + v * 1000) = Except.ok (now + v * 1000 + d)
      rw [add_right_comm]
    · unfold codesExpireAt; rw [hc]
      show Except.ok (now + d + v * 1000) = Except.ok (now + v * 1000 + d)
      rw [add_right_comm]

/-- Witness for C2: payload `{expires_in: 3600}`, first call at clock `0`,
second call 1000 ms (one second) later returns a timestamp exactly 1000 ms
larger. -/
theorem claim2_witness :
    (accessTokenExpiresAt [("expires_in", JsonValue.num 3600)] 0).2
      = .ok (0 + 3600 * 1000)
    ∧ (accessTokenExpiresAt [("expires_in", JsonValue.num 3600)] (0 + 1000)).2
      = .ok (0 + 3600 * 1000 + 1000)
    ∧ ((0 : ℚ) + 3600 * 1000 = 3600000) ∧ ((0 : ℚ) + 3600 * 1000 + 1000 = 3601000) :=
  ⟨(claim2_expiresAt_now_relative [("expires_in", JsonValue.num 3600)] 0 3600 rfl).1,
   ((claim2_expiresAt_now_relative [("expires_in", JsonValue.num 3600)] 0 3600 rfl).2.2
      1000).1,
   by norm_num, by norm_num⟩

/-- C3 counterexample: on the empty payload, `accessTokenExpiresAt` does fail
with a MissingOrInvalidField error, but the clock has already been read once
when the failure happens: the source evaluates
`Date.now() + this.accessTokenExpiresInSeconds() * 1000` left to right, so
`Date.now()` executes before the throwing accessor.  The clock-read count on
the failing path is `1`, not `0`, refuting "this failure occurs before any
read of the system clock". -/
theorem claim3_counterexample :
    (accessTokenExpiresAt ([] : Payload) 0).2
      = .error (.missingOrInvalidField "expires_in")
    ∧ (accessTokenExpiresAt ([] : Payload) 0).1 = 1
    ∧ (1 : Nat) ≠ 0 :=
  ⟨rfl, rfl, by decide⟩

/-- C3 amended: for every payload in which `expires_in` is absent or not a
number, `accessTokenExpiresAt` and `codesExpireAt` fail with a
MissingOrInvalidField error naming `expires_in`, and the system clock is
read exactly once before the failure (not zero times). -/
theorem claim3_amended_fail_after_one_clock_read (body : Payload) (now : ℚ)
    (h : ∀ v, body.lookup "expires_in" ≠ some (JsonValue.num v)) :
    accessTokenExpiresAt body now
      = (1, .error (.missingOrInvalidField "expires_in"))
    ∧ codesExpireAt body now
      = (1, .error (.missingOrInvalidField "expires_in")) := by
  have he : accessTokenExpiresInSeconds body
      = .error (.missingOrInvalidField "expires_in") :=
    getNumberField_of_not_num "expires_in" body h
  have hc : codesExpireInSeconds body
      = .error (.missingOrInvalidField "expires_in") :=
    getNumberField_of_not_num "expires_in" body h
  constructor
  · unfold accessTokenExpiresAt; rw [he]
  · unfold codesExpireAt; rw [hc]

/-- Witness for the amended C3 at the empty payload. -/
theorem claim3_witness :
    accessTokenExpiresAt ([] : Payload) 0
      = (1, .error (.missingOrInvalidField "expires_in")) :=
  (claim3_amended_fail_after_one_clock_read [] 0
    (fun _ h => Option.noConfusion h)).1

/-- C4: when `scope` is a string, `scopes` splits it on single ASCII spaces
with no deduplication and no trimming (`"read write"` gives
`["read", "write"]`, `""` gives `[""]`, `"a  b"` gives `["a", "", "b"]`);
when `scope` is absent or not a string, `scopes` fails with a
MissingOrInvalidField error naming `scope`. -/
theorem claim4_scopes_split (body : Payload) :
    scopes [("scope", JsonValue.str "read write")] = .ok ["read", "write"]
    ∧ scopes [("scope", JsonValue.str "")] = .ok [""]
    ∧ scopes [("scope", JsonValue.str "a  b")] = .ok ["a", "", "b"]
    ∧ (∀ s, body.lookup "scope" = some (JsonValue.str s) →
        scopes body = .ok (jsSplit ' ' s))
    ∧ ((∀ s, body.lookup "scope" ≠ some (JsonValue.str s)) →
        scopes body = .error (.missingOrInvalidField "scope")) := by
  refine ⟨rfl, rfl, rfl, ?_, ?_⟩
  · intro s h; unfold scopes; rw [h]
  · intro h
    unfold scopes
    rcases hv : body.lookup "scope" with _ | v
    · rfl
    · cases v with
      | str s => exact absurd hv (h s)
      | _ => rfl

/-- Witness for C4 at the payload `{scope: 1}` (present but not a string). -/
theorem claim4_witness :
    scopes [("scope", JsonValue.num 1)]
      = .error (.missingOrInvalidField "scope") :=
  (claim4_scopes_split [("scope", JsonValue.num 1)]).2.2.2.2
    (fun _ h => JsonValue.noConfusion (Option.some.inj h))

/-- C5: `intervalSeconds` follows the three-way policy — default `5` when
`interval` is absent, the stored number when it is numeric, and an
InvalidField error naming `interval` when it is present but not a number;
InvalidField is a distinct error kind from MissingOrInvalidField. -/
theorem claim5_intervalSeconds_three_way :
    (∀ body : Payload, body.lookup "interval" = none →
      intervalSeconds body = .ok 5)
    ∧ (∀ (body : Payload) (n : ℚ),
        body.lookup "interval" = some (JsonValue.num n) →
        intervalSeconds body = .ok n)
    ∧ (∀ (body : Payload) (v : JsonValue), body.lookup "interval" = some v →
        v.isNumber = false →
        intervalSeconds body = .error (.invalidField "interval"))
    ∧ (∀ f g, FieldError.invalidField f ≠ FieldError.missingOrInvalidField g) := by
  refine ⟨?_, ?_, ?_, ?_⟩
  · intro body h; unfold intervalSeconds; rw [h]
  · intro body n h; unfold intervalSeconds; rw [h]
  · intro body v h hn
    unfold intervalSeconds
    rw [h]
    cases v with
    | num n => exact absurd hn (by simp [JsonValue.isNumber])
    | _ => rfl
  · intro f g hf; exact FieldError.noConfusion hf

/-- Witness for C5: `{}` gives `5`, `{interval: 10}` gives `10`,
`{interval: "10"}` fails with InvalidField. -/
theorem claim5_witness :
    intervalSeconds [] = .ok 5
    ∧ intervalSeconds [("interval", JsonValue.num 10)] = .ok 10
    ∧ intervalSeconds [("interval", JsonValue.str "10")]
        = .error (.invalidField "interval") :=
  ⟨claim5_intervalSeconds_three_way.1 [] rfl,
   claim5_intervalSeconds_three_way.2.1 [("interval", JsonValue.num 10)] 10 rfl,
   claim5_intervalSeconds_three_way.2.2.1 [("interval", JsonValue.str "10")]
     (JsonValue.str "10") rfl rfl⟩

/-- C6: constructing any of the three result wrappers succeeds for every
payload and never raises an error — each constructor only stores the payload
and contains no `throw`. -/
theorem claim6_constructors_never_fail (body : Payload) :
    OAuth2RequestResult.make body = .ok ⟨body⟩
    ∧ TokenRequestResult.make body = .ok ⟨body⟩
    ∧ DeviceAuthorizationRequestResult.make body = .ok ⟨body⟩ :=
  ⟨rfl, rfl, rfl⟩

/-- C7: every has-accessor is total — for every payload it returns `.ok` of
some boolean and never an error, whatever the fields of the payload are. -/
theorem claim7_has_accessors_total (body : Payload) :
    (∃ b, hasErrorCode body = .ok b)
    ∧ (∃ b, hasErrorDescription body = .ok b)
    ∧ (∃ b, hasErrorURI body = .ok b)
    ∧ (∃ b, hasState body = .ok b)
    ∧ (∃ b, hasRefreshToken body = .ok b)
    ∧ (∃ b, hasScopes body = .ok b) :=
  ⟨⟨_, rfl⟩, ⟨_, rfl⟩, ⟨_, rfl⟩, ⟨_, rfl⟩, ⟨_, rfl⟩, ⟨_, rfl⟩⟩

/-- C8: every accessor of every variant is a pure read — the post-call
wrapper equals the receiver (no field of the wrapper is ever written), and
for the clock-independent accessors an immediate second call on the
post-call wrapper returns the same result. -/
theorem claim8_accessors_pure (r : OAuth2RequestResult) (t : TokenRequestResult)
    (d : DeviceAuthorizationRequestResult) (now : ℚ) :
    (r.hasErrorCodeM.2 = r ∧ r.hasErrorCodeM.2.hasErrorCodeM.1 = r.hasErrorCodeM.1)
    ∧ (r.errorCodeM.2 = r ∧ r.errorCodeM.2.errorCodeM.1 = r.errorCodeM.1)
    ∧ (r.hasErrorDescriptionM.2 = r
        ∧ r.hasErrorDescriptionM.2.hasErrorDescriptionM.1 = r.hasErrorDescriptionM.1)
    ∧ (r.errorDescriptionM.2 = r
        ∧ r.errorDescriptionM.2.errorDescriptionM.1 = r.errorDescriptionM.1)
    ∧ (r.hasErrorURIM.2 = r ∧ r.hasErrorURIM.2.hasErrorURIM.1 = r.hasErrorURIM.1)
    ∧ (r.errorURIM.2 = r ∧ r.errorURIM.2.errorURIM.1 = r.errorURIM.1)
    ∧ (r.hasStateM.2 = r ∧ r.hasStateM.2.hasStateM.1 = r.hasStateM.1)
    ∧ (r.stateM.2 = r ∧ r.stateM.2.stateM.1 = r.stateM.1)
    ∧ (t.tokenTypeM.2 = t ∧ t.tokenTypeM.2.tokenTypeM.1 = t.tokenTypeM.1)
    ∧ (t.accessTokenM.2 = t ∧ t.accessTokenM.2.accessTokenM.1 = t.accessTokenM.1)
    ∧ (t.accessTokenExpiresInSecondsM.2 = t
        ∧ t.accessTokenExpiresInSecondsM.2.accessTokenExpiresInSecondsM.1
            = t.accessTokenExpiresInSecondsM.1)
    ∧ (t.accessTokenExpiresAtM now).2 = t
    ∧ (t.hasRefreshTokenM.2 = t
        ∧ t.hasRefreshTokenM.2.hasRefreshTokenM.1 = t.hasRefreshTokenM.1)
    ∧ (t.refreshTokenM.2 = t ∧ t.refreshTokenM.2.refreshTokenM.1 = t.refreshTokenM.1)
    ∧ (t.hasScopesM.2 = t ∧ t.hasScopesM.2.hasScopesM.1 = t.hasScopesM.1)
    ∧ (t.scopesM.2 = t ∧ t.scopesM.2.scopesM.1 = t.scopesM.1)
    ∧ (d.deviceCodeM.2 = d ∧ d.deviceCodeM.2.deviceCodeM.1 = d.deviceCodeM.1)
    ∧ (d.userCodeM.2 = d ∧ d.userCodeM.2.userCodeM.1 = d.userCodeM.1)
    ∧ (d.verificationURIM.2 = d
        ∧ d.verificationURIM.2.verificationURIM.1 = d.verificationURIM.1)
    ∧ (d.codesExpireInSecondsM.2 = d
        ∧ d.codesExpireInSecondsM.2.codesExpireInSecondsM.1
            = d.codesExpireInSecondsM.1)
    ∧ (d.codesExpireAtM now).2 = d
    ∧ (d.intervalSecondsM.2 = d
        ∧ d.intervalSecondsM.2.intervalSecondsM.1 = d.intervalSecondsM.1) :=
  ⟨⟨rfl, rfl⟩, ⟨rfl, rfl⟩, ⟨rfl, rfl⟩, ⟨rfl, rfl⟩, ⟨rfl, rfl⟩, ⟨rfl, rfl⟩,
   ⟨rfl, rfl⟩, ⟨rfl, rfl⟩, ⟨rfl, rfl⟩, ⟨rfl, rfl⟩, ⟨rfl, rfl⟩, rfl,
   ⟨rfl, rfl⟩, ⟨rfl, rfl⟩, ⟨rfl, rfl⟩, ⟨rfl, rfl⟩, ⟨rfl, rfl⟩, ⟨rfl, rfl⟩,
   ⟨rfl, rfl⟩, ⟨rfl, rfl⟩, rfl, ⟨rfl, rfl⟩⟩

/-- C9: a successful `scopes` call never returns the empty sequence —
splitting any string on a single space yields at least one element. -/
theorem claim9_scopes_nonempty (body : Payload) (r : List String)
    (h : scopes body = .ok r) : r ≠ [] := by
  unfold scopes at h
  rcases hv : body.lookup "scope" with _ | v <;> rw [hv] at h
  · exact Except.noConfusion h
  · cases v with
    | str s =>
      have hr : jsSplit ' ' s = r := Except.ok.inj h
      subst hr
      unfold jsSplit
      intro hmap
      exact splitChars_ne_nil ' ' s.data (List.map_eq_nil_iff.mp hmap)
    | num n => exact Except.noConfusion h
    | bool b => exact Except.noConfusion h
    | null => exact Except.noConfusion h
    | arr es => exact Except.noConfusion h
    | obj fs => exact Except.noConfusion h

/-- Witness for C9 at the payload `{scope: ""}`: the result is `[""]`, which
is nonempty. -/
theorem claim9_witness :
    scopes [("scope", JsonValue.str "")] = .ok [""]
    ∧ ([""] : List String) ≠ [] :=
  ⟨rfl, claim9_scopes_nonempty [("scope", JsonValue.str "")] [""] rfl⟩

/-- C10: `accessTokenExpiresInSeconds` and `codesExpireInSeconds` return any
numeric `expires_in` value unchanged — zero, negative or non-integral — with
no range validation, so the computed expiry timestamp can be at or before
the current clock value. -/
theorem claim10_no_range_validation (body : Payload) (now v : ℚ)
    (h : body.lookup "expires_in" = some (JsonValue.num v)) :
    accessTokenExpiresInSeconds body = .ok v
    ∧ codesExpireInSeconds body = .ok v
    ∧ (accessTokenExpiresAt body now).2 = .ok (now + v * 1000)
    ∧ (codesExpireAt body now).2 = .ok (now + v * 1000)
    ∧ (v ≤ 0 → now + v * 1000 ≤ now) := by
  have he : accessTokenExpiresInSeconds body = .ok v :=
    getNumberField_of_lookup "expires_in" v body h
  have hc : codesExpireInSeconds body = .ok v :=
    getNumberField_of_lookup "expires_in" v body h
  refine ⟨he, hc, ?_, ?_, ?_⟩
  · unfold accessTokenExpiresAt; rw [he]
  · unfold codesExpireAt; rw [hc]
  · intro hv
    have h1000 : (0 : ℚ) ≤ 1000 := by norm_num
    have hm : v * 1000 ≤ 0 := mul_nonpos_of_nonpos_of_nonneg hv h1000
    linarith

/-- Witness for C10: `expires_in` equal to `-1/2` (negative and
non-integral) is returned unchanged, and the expiry computed at clock `0`
is not after `0`. -/
theorem claim10_witness :
    accessTokenExpiresInSeconds [("expires_in", JsonValue.num (-1/2))]
      = .ok (-1/2)
    ∧ (0 : ℚ) + (-1/2) * 1000 ≤ 0 := by
  have h := claim10_no_range_validation
    [("expires_in", JsonValue.num (-1/2))] 0 (-1/2) rfl
  exact ⟨h.1, h.2.2.2.2 (by norm_num)⟩

end NoteOAuth2
